import Mathlib

/-!
Verification of the GPUODEBenchmarks core against its specification.

The Python sources are shallowly embedded over exact rationals:
* `compare_numerical_results.py` (EquivalenceEngine): `compare_arrays`,
  the worst-mismatch report and the pairwise markdown table cells.
* `model_definitions.py` (ModelCatalog / ParameterSweepGenerator):
  the model registry and `get_parameter_list` via `np.linspace`.
* the three benchmark drivers (TimingHarness): their measurement
  protocols as explicit step sequences and the `min(res) * 1000` rule.
* the Lorenz right-hand sides of the JAX, PyTorch and generated Cubie
  backends.
-/

namespace GPUODEBench

/- ===================================================================
   EquivalenceEngine — src/compare_numerical_results.py
   =================================================================== -/

/-- A dense numeric snapshot, as loaded by `np.loadtxt`: a list of rows
of rationals.  All snapshots the tool handles are rectangular. -/
structure Mat where
  rows : List (List ℚ)
deriving DecidableEq

/-- The numpy shape, rendered as the list of row lengths (for the
rectangular arrays the tool loads, equality of this list is exactly
`arr1.shape == arr2.shape`, line 30 of compare_numerical_results.py). -/
def Mat.shape (m : Mat) : List Nat := m.rows.map List.length

/-- The flattened element sequence, row-major as in numpy. -/
def Mat.flat (m : Mat) : List ℚ := m.rows.flatten

/-- Number of columns (`arr1.shape[1]` for a rectangular 2-D array). -/
def Mat.ncols (m : Mat) : Nat := (m.rows.headD []).length

/-- The epsilon `1e-20` added to the denominator of the relative
difference proxy (line 38). -/
def eps : ℚ := 1 / 10 ^ 20

/-- Embedding of `np.abs` on one element (equal to `|x|`, see `npabs_eq_abs`). -/
def npabs (x : ℚ) : ℚ := if x < 0 then -x else x

/-- Embedding of `diff = np.abs(arr1 - arr2)` (line 37), flattened. -/
def absDiffs (a b : Mat) : List ℚ :=
  List.zipWith (fun x y => npabs (x - y)) a.flat b.flat

/-- Embedding of `relative_diff = np.abs((arr1 - arr2) / (arr1 + 1e-20))` (line 38),
flattened. -/
def relDiffs (a b : Mat) : List ℚ :=
  List.zipWith (fun x y => npabs ((x - y) / (x + eps))) a.flat b.flat

/-- Embedding of `np.allclose(arr1, arr2, rtol, atol)` (line 41): over exact
rationals (no NaN/inf) this is the conjunction of the elementwise
closeness predicate `|a-b| <= atol + rtol*|b|`. -/
def allclose (a b : Mat) (rtol atol : ℚ) : Prop :=
  (List.zipWith (fun x y => npabs (x - y) ≤ atol + rtol * npabs y)
    a.flat b.flat).Forall id

/-- Embedding of `num_close = np.sum(elementwise_close)` for the boolean array
`elementwise_close = np.abs(arr1 - arr2) <= (atol + rtol * np.abs(arr2))`
(lines 45-46): the number of elements passing the closeness test. -/
def closeCount (a b : Mat) (rtol atol : ℚ) : ℕ :=
  (List.zipWith
    (fun x y => if npabs (x - y) ≤ atol + rtol * npabs y then (1 : ℕ) else 0)
    a.flat b.flat).sum

/-- Embedding of `np.max` over a flattened array.  numpy raises on an empty array;
the `[]` case is junk (0) and theorems that depend on the maximum carry
a nonemptiness hypothesis. -/
def listMax : List ℚ → ℚ
  | [] => 0
  | x :: xs => xs.foldl max x

/-- Embedding of `np.min` over a flattened array (same empty-array caveat). -/
def listMin : List ℚ → ℚ
  | [] => 0
  | x :: xs => xs.foldl min x

/-- Embedding of `np.mean` over a flattened array (sum divided by size; `0` on the
empty array, where numpy would warn and give NaN). -/
def listMean (l : List ℚ) : ℚ := l.sum / (l.length : ℚ)

/-- Failure of a pairwise comparison.  `compare_arrays` signals shape
mismatch by printing an error and returning no statistics (lines
30-32); the spec names this failure `ShapeMismatch`. -/
inductive CompareError
  | ShapeMismatch
deriving DecidableEq

/-- The summary-statistics dictionary built at lines 87-96, with the
source's key names.  Note that the key `rel_min` is assigned
`np.max(relative_diff)` and `rel_std` is assigned
`np.mean(relative_diff)` (lines 94-95). -/
structure Stats where
  is_close : Prop
  num_close : Nat
  total_elements : Nat
  percent_close : ℚ
  abs_max : ℚ
  abs_mean : ℚ
  rel_min : ℚ
  rel_std : ℚ

/-- Embedding of `compare_arrays(name1, arr1, name2, arr2, rtol, atol)` (lines
23-97), minus the printing.  The name arguments only feed the prints
and are dropped.  Source defaults: `rtol=1e-4`, `atol=1e-6`. -/
def compare_arrays (a b : Mat) (rtol atol : ℚ) : Except CompareError Stats :=
  if a.shape ≠ b.shape then .error .ShapeMismatch
  else
    let diff := absDiffs a b
    let rel := relDiffs a b
    let num_close := closeCount a b rtol atol
    let total := a.flat.length
    .ok ⟨allclose a b rtol atol, num_close, total,
         100 * (num_close : ℚ) / (total : ℚ),
         listMax diff, listMean diff, listMax rel, listMean rel⟩

/-- First index attaining the maximum of a list (running best index,
next index, running best value). -/
def argmaxFrom : Nat → Nat → ℚ → List ℚ → Nat
  | best, _, _, [] => best
  | best, i, bv, x :: xs =>
      if bv < x then argmaxFrom i (i + 1) x xs else argmaxFrom best (i + 1) bv xs

/-- Index of the maximum of a flattened diff array (0 on empty). -/
def argmaxIdx : List ℚ → Nat
  | [] => 0
  | x :: xs => argmaxFrom 0 1 x xs

/-- Embedding of `np.unravel_index(idx, (rows, cols))` for a 2-D shape. -/
def unravel (idx cols : Nat) : Nat × Nat := (idx / cols, idx % cols)

/-- The top-ranked entry of the worst-mismatch report, which lines
73-85 print exactly when the comparison succeeded and `is_close` is
false: the position of the largest flattened absolute difference
(`np.argsort(flat_diff)[-5:][::-1]` puts the argmax first; for a unique
maximum this is independent of numpy's tie order). -/
def top_mismatch (a b : Mat) : Nat × Nat :=
  unravel (argmaxIdx (absDiffs a b)) a.ncols

/-- One off-diagonal cell of the pairwise markdown table built by
`main` (lines 159-174): `N/A` when the pair's comparison produced no
statistics, otherwise the `Max/Mean/%Close` triple it formats. -/
inductive Cell
  | diag
  | na
  | stats (abs_max abs_mean percent_close : ℚ)
deriving DecidableEq

/-- Cell rendering for one pair's comparison result (lines 161-173). -/
def cellFor (r : Except CompareError Stats) : Cell :=
  match r with
  | .error _ => .na
  | .ok s => .stats s.abs_max s.abs_mean s.percent_close

/-- The full table cell: `-` on the diagonal, otherwise the pair's
rendered comparison (lines 161-173; `stats_map` holds exactly the
result of `compare_arrays` on the pair). -/
def tableCell (rowName colName : String) (r : Except CompareError Stats) : Cell :=
  if rowName = colName then .diag else cellFor r

/- ===================================================================
   ModelCatalog / ParameterSweepGenerator — src/model_definitions.py
   =================================================================== -/

/-- Failures of the catalog and sweep generator.  `get_model_params`
raises `ValueError("Unknown model: ...")` (line 79); `np.linspace`
raises `ValueError` on a negative sample count.  The spec names these
`UnknownModel` and `InvalidCount`. -/
inductive SweepError
  | UnknownModel
  | InvalidCount
deriving DecidableEq

/-- A model parameter record as returned by `get_lorenz_params` /
`get_vanderpol_params` (the fields the benchmarking core consumes;
`tspan` involves the irrational `2*pi` for Van der Pol and is not
needed by any claim, so it is omitted). -/
structure ModelParams where
  name : String
  dimension : Nat
  initial_conditions : List (String × ℚ)
  constants : List (String × ℚ)
  parameter_name : String
  parameter_default : ℚ
  parameter_range : ℚ × ℚ
deriving DecidableEq

/-- Embedding of `get_lorenz_params` (lines 9-33): sigma = 10, beta = 8/3, rho swept
over [0, 21]. -/
def get_lorenz_params : ModelParams :=
  ⟨"Lorenz", 3, [("x", 1), ("y", 0), ("z", 0)],
   [("sigma", 10), ("beta", 8 / 3)], "rho", 21, (0, 21)⟩

/-- Embedding of `get_vanderpol_params` (lines 36-59): mu swept over [0.1, 5]. -/
def get_vanderpol_params : ModelParams :=
  ⟨"VanDerPol", 2, [("x", 2), ("y", 0)], [], "mu", 1, (1 / 10, 5)⟩

/-- Python `str.lower()` on the model name: character-wise
lower-casing (the names involved are ASCII). -/
def pyLower (s : String) : String := ⟨s.data.map Char.toLower⟩

/-- Embedding of `get_model_params(model_name, precision)` (lines 62-79):
case-insensitive name lookup, `UnknownModel` otherwise. -/
def get_model_params (model_name : String) : Except SweepError ModelParams :=
  if pyLower model_name = "lorenz" then .ok get_lorenz_params
  else if pyLower model_name = "vanderpol" then .ok get_vanderpol_params
  else .error .UnknownModel

/-- Embedding of `np.linspace(start, stop, num, dtype)` over exact rationals.
numpy raises `ValueError` on `num < 0`; returns `[]` for `num = 0`,
`[start]` for `num = 1`, and otherwise `start + i * step` for
`i = 0..num-1` with `step = (stop-start)/(num-1)` (numpy additionally
assigns `stop` to the last slot, which over exact arithmetic coincides
with the formula). -/
def linspace (lo hi : ℚ) (num : ℤ) : Except SweepError (List ℚ) :=
  if num < 0 then .error .InvalidCount
  else if num = 1 then .ok [lo]
  else .ok ((List.range num.toNat).map
    (fun (i : ℕ) => lo + (i : ℚ) * ((hi - lo) / ((num : ℚ) - 1))))

/-- Embedding of `get_parameter_list(model_name, n_trajectories, precision)`
(lines 82-96): look the model up, then
`np.linspace(param_min, param_max, n_trajectories, dtype=precision)`. -/
def get_parameter_list (model_name : String) (n_trajectories : ℤ) :
    Except SweepError (List ℚ) := do
  let params ← get_model_params model_name
  linspace params.parameter_range.1 params.parameter_range.2 n_trajectories

/- ===================================================================
   TimingHarness — bench_cubie.py, bench_diffrax.py, bench_torchdiffeq.py
   =================================================================== -/

/-- One solver invocation of a benchmark script's measurement section:
an untimed warm-up solve of the full ensemble whose result is
discarded, or one timed trial solving the full ensemble once. -/
inductive BenchStep
  | warmup
  | trial
deriving DecidableEq

/-- bench_cubie.py fixed-stepping measurement: `_ = solve_fixed()`
(line 118) then `timeit.repeat(..., repeat=100, number=1)` (line 121). -/
def bench_cubie_fixed : List BenchStep :=
  .warmup :: List.replicate 100 .trial

/-- bench_cubie.py adaptive measurement: `_ = solve_adaptive()`
(line 146) then `timeit.repeat(..., repeat=100, number=1)` (line 149). -/
def bench_cubie_adaptive : List BenchStep :=
  .warmup :: List.replicate 100 .trial

/-- bench_diffrax.py fixed measurement: `timeit.repeat(lambda:
main(parameterList), repeat=100, number=1)` (line 78) with no prior
call of `main`. -/
def bench_diffrax_fixed : List BenchStep := List.replicate 100 .trial

/-- bench_diffrax.py adaptive measurement: `timeit.repeat(lambda:
main_adaptive(parameterList), repeat=100, number=1)` (line 134) with no
prior call of `main_adaptive`. -/
def bench_diffrax_adaptive : List BenchStep := List.replicate 100 .trial

/-- bench_torchdiffeq.py measurement: `timeit.repeat(lambda:
torch.vmap(solve)(parameters), repeat=10, number=1)` (line 72) with no
prior ensemble solve. -/
def bench_torchdiffeq_fixed : List BenchStep := List.replicate 10 .trial

/-- Every (backend, mode) timing measurement of the three benchmark
scripts. -/
def allTimingMeasurements : List (String × String × List BenchStep) :=
  [("cubie", "fixed", bench_cubie_fixed),
   ("cubie", "adaptive", bench_cubie_adaptive),
   ("jax", "fixed", bench_diffrax_fixed),
   ("jax", "adaptive", bench_diffrax_adaptive),
   ("pytorch", "fixed", bench_torchdiffeq_fixed)]

/-- A measurement follows the warm-up protocol: exactly one untimed
warm-up solve first, then only timed trials. -/
def oneWarmupThenTrials (s : List BenchStep) : Bool :=
  match s with
  | .warmup :: rest => rest.all (fun st => decide (st = .trial))
  | _ => false

/-- Number of warm-up solves in a measurement. -/
def warmupCount (s : List BenchStep) : Nat :=
  s.countP (fun st => decide (st = .warmup))

/-- Embedding of `best_time = min(res) * 1000` (bench_cubie.py line 123,
bench_diffrax.py line 80, bench_torchdiffeq.py line 78): `res` is the
list of timed-trial durations in seconds returned by `timeit.repeat`;
the recorded value is the minimum converted to milliseconds.  `min` of
an empty list raises in Python; `repeat >= 10` keeps `res` nonempty. -/
def best_time (res : List ℚ) : ℚ :=
  match res with
  | [] => 0
  | r :: rs => (rs.foldl min r) * 1000

/- ===================================================================
   Lorenz right-hand sides of the three backends
   =================================================================== -/

/-- Embedding of `Lorenz.__call__` of the JAX model class (model_definitions.py
lines 159-167): `f0 = 10.0*(y[1]-y[0])`,
`f1 = rho*y[0] - y[1] - y[0]*y[2]`, `f2 = y[0]*y[1] - (8/3)*y[2]`. -/
def jax_lorenz_call (rho : ℚ) (y : List ℚ) : List ℚ :=
  [10 * (y.getD 1 0 - y.getD 0 0),
   rho * y.getD 0 0 - y.getD 1 0 - y.getD 0 0 * y.getD 2 0,
   y.getD 0 0 * y.getD 1 0 - 8 / 3 * y.getD 2 0]

/-- Embedding of `LorenzODE.forward` of the PyTorch model class (model_definitions.py
lines 199-212) with its constructor constants `sigma = [10.0]`,
`beta = [8/3]`: `du1 = sigma[0]*(y-x)`, `du2 = x*(rho-z) - y`,
`du3 = x*y - beta[0]*z`. -/
def pytorch_lorenz_forward (rho : ℚ) (u : List ℚ) : List ℚ :=
  let sigma : ℚ := 10
  let beta : ℚ := 8 / 3
  let x := u.getD 0 0
  let y := u.getD 1 0
  let z := u.getD 2 0
  [sigma * (y - x), x * (rho - z) - y, x * y - beta * z]

/-- The generated Cubie `dxdt` (src/generated/Lorenz.py lines 10-29),
with `sigma` and `beta` read from the constants dictionary and `rho`
as `parameters[0]`: `out[2] = -beta*state[2] + state[0]*state[1]`,
`_cse0 = -state[1]`, `out[1] = _cse0 + state[0]*(parameters[0] -
state[2])`, `out[0] = sigma*(-_cse0 - state[0])`; returned in index
order `out[0], out[1], out[2]`. -/
def cubie_lorenz_dxdt (sigma beta : ℚ) (state parameters : List ℚ) : List ℚ :=
  let s0 := state.getD 0 0
  let s1 := state.getD 1 0
  let s2 := state.getD 2 0
  let p0 := parameters.getD 0 0
  let cse0 := -s1
  [sigma * (-cse0 - s0), cse0 + s0 * (p0 - s2), -beta * s2 + s0 * s1]

/-- Constant lookup in a `ModelParams.constants` association list, as
`dxdt_factory` does with `constants['sigma']` / `constants['beta']`. -/
def lookupConst (cs : List (String × ℚ)) (k : String) : ℚ :=
  (((cs.find? (fun p => decide (p.1 = k))).map Prod.snd).getD 0)

/- ===================================================================
   Shared lemmas
   =================================================================== -/

theorem npabs_eq_abs (x : ℚ) : npabs x = |x| := by
  unfold npabs
  by_cases h : x < 0
  · rw [if_pos h, abs_of_neg h]
  · rw [if_neg h, abs_of_nonneg (not_lt.mp h)]

theorem npabs_nonneg (x : ℚ) : 0 ≤ npabs x := by
  rw [npabs_eq_abs]; exact abs_nonneg x

theorem npabs_sub_comm (x y : ℚ) : npabs (x - y) = npabs (y - x) := by
  rw [npabs_eq_abs, npabs_eq_abs, abs_sub_comm]

theorem npabs_zero : npabs 0 = 0 := by
  rw [npabs_eq_abs, abs_zero]

/-- Elementwise `|a - b| = |b - a|`, hence the swapped diff array is
the same array. -/
theorem absDiffs_comm (a b : Mat) : absDiffs a b = absDiffs b a :=
  List.zipWith_comm_of_comm _ npabs_sub_comm a.flat b.flat

theorem foldl_max_zero (l : List ℚ) (h : ∀ x ∈ l, x = 0) :
    l.foldl max 0 = 0 := by
  induction l with
  | nil => rfl
  | cons y ys ih =>
      rw [List.foldl_cons, h y (List.mem_cons_self y _), max_self]
      exact ih (fun x hx => h x (List.mem_cons_of_mem _ hx))

theorem listMax_of_all_zero (l : List ℚ) (h : ∀ x ∈ l, x = 0) :
    listMax l = 0 := by
  cases l with
  | nil => rfl
  | cons y ys =>
      unfold listMax
      rw [h y (List.mem_cons_self y _)]
      exact foldl_max_zero ys (fun x hx => h x (List.mem_cons_of_mem _ hx))

theorem foldl_min_le_init (r : ℚ) (rs : List ℚ) : rs.foldl min r ≤ r := by
  induction rs generalizing r with
  | nil => exact le_refl r
  | cons y ys ih =>
      rw [List.foldl_cons]
      exact (ih (min r y)).trans (min_le_left r y)

theorem foldl_min_le_mem (r x : ℚ) (rs : List ℚ) (hx : x ∈ rs) :
    rs.foldl min r ≤ x := by
  induction rs generalizing r with
  | nil => cases hx
  | cons y ys ih =>
      rw [List.foldl_cons]
      rcases List.mem_cons.mp hx with h | h
      · subst h
        exact (foldl_min_le_init (min r x) ys).trans (min_le_right r x)
      · exact ih (min r y) h

theorem foldl_min_mem (r : ℚ) (rs : List ℚ) : rs.foldl min r ∈ r :: rs := by
  induction rs generalizing r with
  | nil => simp
  | cons y ys ih =>
      rw [List.foldl_cons, List.mem_cons]
      have h := ih (min r y)
      rw [List.mem_cons] at h
      rcases h with h | h
      · rcases min_choice r y with hm | hm
        · left; rw [h, hm]
        · right; rw [List.mem_cons]; left; rw [h, hm]
      · right; rw [List.mem_cons]; right; exact h

/-- On equal shapes `compare_arrays` returns exactly the statistics
record of lines 87-96. -/
theorem compare_arrays_eq_ok (a b : Mat) (rtol atol : ℚ)
    (h : a.shape = b.shape) :
    compare_arrays a b rtol atol = .ok
      ⟨allclose a b rtol atol, closeCount a b rtol atol, a.flat.length,
       100 * (closeCount a b rtol atol : ℚ) / (a.flat.length : ℚ),
       listMax (absDiffs a b), listMean (absDiffs a b),
       listMax (relDiffs a b), listMean (relDiffs a b)⟩ := by
  unfold compare_arrays
  rw [if_neg (by simp [h])]

/-- On unequal shapes `compare_arrays` fails with `ShapeMismatch`. -/
theorem compare_arrays_shape_ne (a b : Mat) (rtol atol : ℚ)
    (h : a.shape ≠ b.shape) :
    compare_arrays a b rtol atol = .error .ShapeMismatch := by
  unfold compare_arrays
  rw [if_pos h]

/-- A successful comparison implies the shapes agreed. -/
theorem compare_arrays_ok_shape (a b : Mat) (rtol atol : ℚ) (s : Stats)
    (h : compare_arrays a b rtol atol = .ok s) : a.shape = b.shape := by
  by_contra hs
  rw [compare_arrays_shape_ne a b rtol atol hs] at h
  simp at h

/- ===================================================================
   Concrete snapshots used in scenarios, counterexamples and witnesses
   =================================================================== -/

/-- A (4,3) snapshot differing from `matC7b` only at element [2,1], by 1. -/
def matC7a : Mat := ⟨[[0, 0, 0], [0, 0, 0], [0, 1, 0], [0, 0, 0]]⟩

/-- All-zero (4,3) snapshot. -/
def matC7b : Mat := ⟨[[0, 0, 0], [0, 0, 0], [0, 0, 0], [0, 0, 0]]⟩

/-- A (1,1) snapshot holding 5/2. -/
def matC1a : Mat := ⟨[[5 / 2]]⟩

/-- A (1,1) snapshot holding 2. -/
def matC1b : Mat := ⟨[[2]]⟩

/-- A (1,2) snapshot holding [0, 1]. -/
def matC10a : Mat := ⟨[[0, 1]]⟩

/-- A (1,2) snapshot holding [1, 1]. -/
def matC10b : Mat := ⟨[[1, 1]]⟩

/-- A (100,3) all-zero snapshot. -/
def mat100x3 : Mat := ⟨List.replicate 100 [0, 0, 0]⟩

/-- A (50,3) all-zero snapshot. -/
def mat50x3 : Mat := ⟨List.replicate 50 [0, 0, 0]⟩

/-- A (2,3) snapshot with distinct entries. -/
def mat2x3 : Mat := ⟨[[1, 2, 3], [4, 5, 6]]⟩

/- ===================================================================
   Claim theorems
   =================================================================== -/

/-- C1, counterexample: the percent-close statistic is NOT symmetric
under swapping the two arrays.  For a = [[5/2]], b = [[2]] with
rtol = 1/5, atol = 0, the closeness test |a-b| <= atol + rtol*|b| fails
one way (1/2 > 2/5) and holds the other (1/2 <= 1/2), so percent_close
is 0 one way and 100 the other. -/
theorem c1_percent_close_asymmetric :
    ∃ s1 s2, compare_arrays matC1a matC1b (1 / 5) 0 = .ok s1 ∧
      compare_arrays matC1b matC1a (1 / 5) 0 = .ok s2 ∧
      s1.percent_close ≠ s2.percent_close := by
  refine ⟨_, _, rfl, rfl, ?_⟩
  norm_num [compare_arrays, closeCount, Mat.flat, Mat.shape, npabs, eps,
    matC1a, matC1b]

/-- C1, amended: for every pair of same-shape arrays and tolerances,
the max and the mean of the absolute differences computed by the
comparison are unchanged when a and b are swapped; the percent-close
statistic (based on the asymmetric predicate |a-b| <= atol + rtol*|b|)
and the relative-difference proxy are not required to be symmetric. -/
theorem c1_abs_stats_symmetric (a b : Mat) (rtol atol : ℚ) (s1 s2 : Stats)
    (h1 : compare_arrays a b rtol atol = .ok s1)
    (h2 : compare_arrays b a rtol atol = .ok s2) :
    s1.abs_max = s2.abs_max ∧ s1.abs_mean = s2.abs_mean := by
  have hs := compare_arrays_ok_shape a b rtol atol s1 h1
  rw [compare_arrays_eq_ok a b rtol atol hs, Except.ok.injEq] at h1
  rw [compare_arrays_eq_ok b a rtol atol hs.symm, Except.ok.injEq] at h2
  subst h1
  subst h2
  rw [absDiffs_comm a b]
  exact ⟨rfl, rfl⟩

/-- C1, witness for the amended theorem at the concrete pair
(matC1a, matC1b). -/
theorem c1_abs_stats_symmetric_witness :
    ∃ s1 s2, compare_arrays matC1a matC1b (1 / 5) 0 = .ok s1 ∧
      compare_arrays matC1b matC1a (1 / 5) 0 = .ok s2 ∧
      s1.abs_max = s2.abs_max ∧ s1.abs_mean = s2.abs_mean :=
  ⟨_, _, compare_arrays_eq_ok matC1a matC1b (1 / 5) 0 (by decide),
   compare_arrays_eq_ok matC1b matC1a (1 / 5) 0 (by decide),
   c1_abs_stats_symmetric matC1a matC1b (1 / 5) 0 _ _
     (compare_arrays_eq_ok matC1a matC1b (1 / 5) 0 (by decide))
     (compare_arrays_eq_ok matC1b matC1a (1 / 5) 0 (by decide))⟩

/-- C7: for two (4,3) snapshots identical except at element [2,1] where
they differ by 1.0 (and b is 0 there), comparing with rtol = 1e-4 and
atol = 1e-6 yields is_close false, 11 of the 12 elements close, and the
top-ranked reported mismatch at position [2,1]. -/
theorem c7_single_element_mismatch :
    ∃ s, compare_arrays matC7a matC7b (1 / 10000) (1 / 1000000) = .ok s ∧
      ¬ s.is_close ∧ s.num_close = 11 ∧ s.total_elements = 12 ∧
      top_mismatch matC7a matC7b = (2, 1) := by
  refine ⟨_, rfl, ?_, ?_, ?_, ?_⟩ <;>
    norm_num [compare_arrays, allclose, closeCount, absDiffs, relDiffs,
      Mat.flat, Mat.shape, Mat.ncols, npabs, listMax, listMean, top_mismatch,
      argmaxIdx, argmaxFrom, unravel, eps, List.Forall, max_def, matC7a, matC7b]

/-- C9: comparing any array with itself succeeds for any nonnegative
tolerances, with is_close true, every absolute difference zero, and
zero max and mean absolute difference (reflexivity). -/
theorem c9_compare_reflexive (a : Mat) (rtol atol : ℚ)
    (hr : 0 ≤ rtol) (ha : 0 ≤ atol) :
    ∃ s, compare_arrays a a rtol atol = .ok s ∧ s.is_close ∧
      (∀ d ∈ absDiffs a a, d = 0) ∧ s.abs_max = 0 ∧ s.abs_mean = 0 := by
  have hzero : ∀ d ∈ absDiffs a a, d = 0 := by
    intro d hd
    unfold absDiffs at hd
    rw [List.zipWith_same] at hd
    obtain ⟨x, _, hxd⟩ := List.mem_map.mp hd
    rw [← hxd, sub_self, npabs_zero]
  refine ⟨_, compare_arrays_eq_ok a a rtol atol rfl, ?_, hzero, ?_, ?_⟩
  · show allclose a a rtol atol
    unfold allclose
    rw [List.zipWith_same, List.forall_iff_forall_mem]
    intro p hp
    obtain ⟨x, _, rfl⟩ := List.mem_map.mp hp
    show npabs (x - x) ≤ atol + rtol * npabs x
    rw [sub_self, npabs_zero]
    have := mul_nonneg hr (npabs_nonneg x)
    linarith
  · exact listMax_of_all_zero _ hzero
  · show listMean (absDiffs a a) = 0
    unfold listMean
    rw [List.sum_eq_zero hzero, zero_div]

/-- C9, witness at the concrete snapshot mat2x3 with rtol = 1/100,
atol = 0. -/
theorem c9_compare_reflexive_witness :
    (0 : ℚ) ≤ 1 / 100 ∧
    ∃ s, compare_arrays mat2x3 mat2x3 (1 / 100) 0 = .ok s ∧ s.is_close ∧
      (∀ d ∈ absDiffs mat2x3 mat2x3, d = 0) ∧ s.abs_max = 0 ∧ s.abs_mean = 0 :=
  ⟨by norm_num,
   c9_compare_reflexive mat2x3 (1 / 100) 0 (by norm_num) (le_refl 0)⟩

/-- C10: whenever a comparison of same-shape arrays succeeds, the
statistics field named `rel_min` holds the MAXIMUM of the
relative-difference proxy and the field named `rel_std` holds its MEAN;
no field of the returned statistics holds the true minimum or standard
deviation of the relative difference. -/
theorem c10_rel_keys_hold_max_and_mean (a b : Mat) (rtol atol : ℚ) (s : Stats)
    (h : compare_arrays a b rtol atol = .ok s) :
    s.rel_min = listMax (relDiffs a b) ∧ s.rel_std = listMean (relDiffs a b) := by
  have hs := compare_arrays_ok_shape a b rtol atol s h
  rw [compare_arrays_eq_ok a b rtol atol hs, Except.ok.injEq] at h
  subst h
  exact ⟨rfl, rfl⟩

/-- C10, witness at the concrete pair (matC10a, matC10b), where the
maximum of the relative proxy differs from its minimum, so `rel_min`
demonstrably does not hold the minimum. -/
theorem c10_rel_keys_witness :
    ∃ s, compare_arrays matC10a matC10b 0 0 = .ok s ∧
      (s.rel_min = listMax (relDiffs matC10a matC10b) ∧
       s.rel_std = listMean (relDiffs matC10a matC10b)) ∧
      listMax (relDiffs matC10a matC10b) ≠ listMin (relDiffs matC10a matC10b) :=
  ⟨_, compare_arrays_eq_ok matC10a matC10b 0 0 (by decide),
   c10_rel_keys_hold_max_and_mean matC10a matC10b 0 0 _
     (compare_arrays_eq_ok matC10a matC10b 0 0 (by decide)),
   by norm_num [relDiffs, Mat.flat, npabs, eps, listMax, listMin, max_def,
     min_def, matC10a, matC10b]⟩

/-- C2, counterexample: it is NOT the case that every (backend,
stepping-mode) timing measurement executes exactly one untimed warm-up
solve before its timed trials: the JAX and PyTorch measurements run
`timeit.repeat` with no preceding ensemble solve. -/
theorem c2_not_every_backend_warms_up :
    ¬ (∀ m ∈ allTimingMeasurements, oneWarmupThenTrials m.2.2 = true) := by
  decide

/-- C2, amended: the Cubie benchmark's measurements (fixed and
adaptive) execute exactly one untimed warm-up solve of the full
ensemble, whose result is discarded, before the 100 timed trials; the
JAX and PyTorch measurements execute no warm-up solve at all before
their timed trials. -/
theorem c2_warmup_protocol :
    oneWarmupThenTrials bench_cubie_fixed = true ∧
    oneWarmupThenTrials bench_cubie_adaptive = true ∧
    warmupCount bench_cubie_fixed = 1 ∧
    warmupCount bench_cubie_adaptive = 1 ∧
    warmupCount bench_diffrax_fixed = 0 ∧
    warmupCount bench_diffrax_adaptive = 0 ∧
    warmupCount bench_torchdiffeq_fixed = 0 := by
  decide

/-- C4: the recorded elapsed value is the minimum duration among the
timed trials converted to milliseconds: `best_time(res) / 1000` is one
of the trial durations (in seconds) and `best_time(res)` is a lower
bound of every duration expressed in milliseconds; at the concrete
per-trial latencies [5,1,9,2] ms the recorded elapsed is 1 ms, while
the mean of those latencies is 4.25 ms. -/
theorem c4_elapsed_is_min_ms :
    (∀ (r : ℚ) (rs : List ℚ),
       best_time (r :: rs) / 1000 ∈ r :: rs ∧
       ∀ x ∈ r :: rs, best_time (r :: rs) ≤ 1000 * x) ∧
    best_time [5 / 1000, 1 / 1000, 9 / 1000, 2 / 1000] = 1 ∧
    listMean (([5 / 1000, 1 / 1000, 9 / 1000, 2 / 1000] : List ℚ).map
      (fun x => x * 1000)) = 17 / 4 := by
  refine ⟨?_, ?_, ?_⟩
  · intro r rs
    constructor
    · show (rs.foldl min r * 1000) / 1000 ∈ r :: rs
      rw [mul_div_cancel_right₀ _ (by norm_num : (1000 : ℚ) ≠ 0)]
      exact foldl_min_mem r rs
    · intro x hx
      show rs.foldl min r * 1000 ≤ 1000 * x
      have hle : rs.foldl min r ≤ x := by
        rcases List.mem_cons.mp hx with h | h
        · subst h; exact foldl_min_le_init x rs
        · exact foldl_min_le_mem r x rs h
      linarith
  · norm_num [best_time, min_def]
  · norm_num [listMean]

/-- C5: comparing arrays of different shapes fails with ShapeMismatch
and returns no statistics; in the aggregated report the offending
pair's cell shows N/A, while a pair with matching shapes still produces
a statistics cell. -/
theorem c5_shape_mismatch_na (a b c d : Mat) (rtol atol : ℚ)
    (n1 n2 : String) (hn : n1 ≠ n2)
    (hab : a.shape ≠ b.shape) (hcd : c.shape = d.shape) :
    compare_arrays a b rtol atol = .error .ShapeMismatch ∧
    tableCell n1 n2 (compare_arrays a b rtol atol) = .na ∧
    ∃ s, compare_arrays c d rtol atol = .ok s ∧
      tableCell n1 n2 (compare_arrays c d rtol atol) =
        .stats s.abs_max s.abs_mean s.percent_close := by
  have he := compare_arrays_shape_ne a b rtol atol hab
  have hok := compare_arrays_eq_ok c d rtol atol hcd
  refine ⟨he, ?_, _, hok, ?_⟩
  · rw [tableCell, if_neg hn, he]; rfl
  · rw [tableCell, if_neg hn, hok]; rfl

/-- C5, witness: the (100,3) vs (50,3) pair of the claim fails with
ShapeMismatch and renders N/A, while the same-shape pair (mat2x3,
mat2x3) produces a statistics cell. -/
theorem c5_shape_mismatch_na_witness :
    mat100x3.shape ≠ mat50x3.shape ∧
    (compare_arrays mat100x3 mat50x3 (1 / 10000) (1 / 1000000) =
       .error .ShapeMismatch ∧
     tableCell "jax" "pytorch"
       (compare_arrays mat100x3 mat50x3 (1 / 10000) (1 / 1000000)) = .na ∧
     ∃ s, compare_arrays mat2x3 mat2x3 (1 / 10000) (1 / 1000000) = .ok s ∧
       tableCell "jax" "pytorch"
         (compare_arrays mat2x3 mat2x3 (1 / 10000) (1 / 1000000)) =
           .stats s.abs_max s.abs_mean s.percent_close) :=
  ⟨by decide,
   c5_shape_mismatch_na mat100x3 mat50x3 mat2x3 mat2x3 (1 / 10000) (1 / 1000000)
     "jax" "pytorch" (by decide) (by decide) rfl⟩

/-- The catalog lookup at the name "lorenz". -/
theorem get_model_params_lorenz :
    get_model_params "lorenz" = .ok get_lorenz_params := by
  unfold get_model_params
  rw [if_pos (by decide)]

/-- Unfolding of `get_parameter_list` once the model lookup succeeded. -/
theorem get_parameter_list_eq (name : String) (mp : ModelParams) (n : ℤ)
    (h : get_model_params name = .ok mp) :
    get_parameter_list name n =
      linspace mp.parameter_range.1 mp.parameter_range.2 n := by
  unfold get_parameter_list
  rw [h]
  rfl

/-- C3, counterexample: for the Lorenz range lo = 0, hi = 21 and
count = 1 (a valid positive count), the sweep is `[0]`, whose last
element is lo, not hi — the claim's count = 1 edge case fails. -/
theorem c3_count_one_last_is_lo :
    get_parameter_list "lorenz" 1 = .ok [0] ∧
    get_lorenz_params.parameter_range = (0, 21) ∧
    ([(0 : ℚ)].getLast? ≠ some 21) := by
  refine ⟨?_, rfl, by norm_num⟩
  rw [get_parameter_list_eq "lorenz" get_lorenz_params 1 get_model_params_lorenz]
  unfold linspace
  rw [if_neg (by norm_num), if_pos rfl]
  rfl

/-- C3, amended: for every lo ≤ hi and integer count > 0, the sweep
generator succeeds and returns exactly count values, the first equal to
lo and monotonically non-decreasing; the last equals hi whenever
count ≥ 2, but in the edge case count = 1 the single returned value is
lo (so the last equals hi only when lo = hi). -/
theorem c3_generate_sweep (lo hi : ℚ) (n : ℤ) (hle : lo ≤ hi) (hpos : 0 < n) :
    ∃ l, linspace lo hi n = .ok l ∧ (l.length : ℤ) = n ∧ l.head? = some lo ∧
      List.Chain' (· ≤ ·) l ∧ (2 ≤ n → l.getLast? = some hi) ∧
      (n = 1 → l = [lo]) := by
  by_cases h1 : n = 1
  · subst h1
    refine ⟨[lo], ?_, by simp, by simp, by simp, ?_, fun _ => rfl⟩
    · unfold linspace
      rw [if_neg (by norm_num), if_pos rfl]
    · intro h2
      exact absurd h2 (by norm_num)
  · have h2 : 2 ≤ n := by omega
    have hn0 : ¬ n < 0 := by omega
    have hc2 : (2 : ℚ) ≤ (n : ℚ) := by exact_mod_cast h2
    have hstep : (0 : ℚ) ≤ (hi - lo) / ((n : ℚ) - 1) :=
      div_nonneg (by linarith) (by linarith)
    have hne : ((n : ℚ) - 1) ≠ 0 := by linarith
    set f : ℕ → ℚ := fun i => lo + (i : ℚ) * ((hi - lo) / ((n : ℚ) - 1))
      with hf
    obtain ⟨m, hm⟩ : ∃ m, n.toNat = m + 1 := ⟨n.toNat - 1, by omega⟩
    refine ⟨(List.range n.toNat).map f, ?_, ?_, ?_, ?_, ?_, fun h => absurd h h1⟩
    · unfold linspace
      rw [if_neg hn0, if_neg h1]
    · rw [List.length_map, List.length_range]; omega
    · rw [hm, List.range_succ_eq_map]
      simp [hf]
    · rw [List.chain'_map, hm]
      refine (List.chain'_range_succ _ m).mpr ?_
      intro i _
      show f i ≤ f (i + 1)
      simp only [hf]
      have hcast : ((i : ℕ) : ℚ) ≤ ((i + 1 : ℕ) : ℚ) := by push_cast; linarith
      have := mul_le_mul_of_nonneg_right hcast hstep
      push_cast at this ⊢
      linarith
    · intro _
      rw [hm, List.range_succ, List.map_append, List.map_singleton,
        List.getLast?_concat]
      have hmn : ((m : ℕ) : ℚ) = (n : ℚ) - 1 := by
        have htn : ((n.toNat : ℕ) : ℚ) = (n : ℚ) := by
          exact_mod_cast congrArg (fun k => ((k : ℤ) : ℚ))
            (Int.toNat_of_nonneg (by omega : (0 : ℤ) ≤ n))
        rw [← htn, hm]
        push_cast
        ring
      simp only [hf, hmn]
      rw [Option.some.injEq]
      field_simp

/-- C3, witness for the amended theorem at the spec's scenario
lo = 0, hi = 21, count = 4. -/
theorem c3_generate_sweep_witness :
    (0 : ℚ) ≤ 21 ∧ (0 : ℤ) < 4 ∧
    ∃ l, linspace 0 21 4 = .ok l ∧ (l.length : ℤ) = 4 ∧ l.head? = some 0 ∧
      List.Chain' (· ≤ ·) l ∧ (2 ≤ (4 : ℤ) → l.getLast? = some 21) ∧
      ((4 : ℤ) = 1 → l = [0]) :=
  ⟨by norm_num, by norm_num, c3_generate_sweep 0 21 4 (by norm_num) (by norm_num)⟩

/-- C6, counterexample: a count of zero is not a positive integer, yet
sweep generation does not fail — it returns an (empty) output sequence,
exactly as `np.linspace(lo, hi, 0)` does. -/
theorem c6_zero_count_not_rejected :
    get_parameter_list "lorenz" 0 = .ok [] := by
  rw [get_parameter_list_eq "lorenz" get_lorenz_params 0 get_model_params_lorenz]
  unfold linspace
  rw [if_neg (by norm_num), if_neg (by norm_num)]
  simp

/-- C6, amended: for every model known to the catalog, sweep generation
fails with InvalidCount (producing no output sequence) exactly for
NEGATIVE counts; a count of zero is accepted and yields the empty
sequence. -/
theorem c6_negative_count_fails (name : String) (mp : ModelParams)
    (h : get_model_params name = .ok mp) :
    (∀ n : ℤ, n < 0 → get_parameter_list name n = .error .InvalidCount) ∧
    get_parameter_list name 0 = .ok [] := by
  constructor
  · intro n hn
    rw [get_parameter_list_eq name mp n h]
    unfold linspace
    rw [if_pos hn]
  · rw [get_parameter_list_eq name mp 0 h]
    unfold linspace
    rw [if_neg (by norm_num), if_neg (by norm_num)]
    simp

/-- C6, witness for the amended theorem at model "lorenz" and
count = -3. -/
theorem c6_negative_count_fails_witness :
    get_model_params "lorenz" = .ok get_lorenz_params ∧
    get_parameter_list "lorenz" (-3) = .error .InvalidCount ∧
    get_parameter_list "lorenz" 0 = .ok [] := by
  have h := get_model_params_lorenz
  exact ⟨h,
    (c6_negative_count_fails "lorenz" get_lorenz_params h).1 (-3) (by norm_num),
    (c6_negative_count_fails "lorenz" get_lorenz_params h).2⟩

/-- C8: for every state (x, y, z) and parameter rho, the Lorenz
right-hand sides of the JAX model class, the PyTorch model class, and
the generated Cubie dxdt (with sigma and beta looked up from the
catalog's constants, sigma = 10 and beta = 8/3) compute identical
derivative vectors: all backends encode the same mathematical system. -/
theorem c8_lorenz_backends_agree (rho x y z : ℚ) :
    jax_lorenz_call rho [x, y, z] = pytorch_lorenz_forward rho [x, y, z] ∧
    jax_lorenz_call rho [x, y, z] =
      cubie_lorenz_dxdt (lookupConst get_lorenz_params.constants "sigma")
        (lookupConst get_lorenz_params.constants "beta") [x, y, z] [rho] := by
  constructor
  · simp [jax_lorenz_call, pytorch_lorenz_forward] <;> and_intros <;> ring
  · simp [jax_lorenz_call, cubie_lorenz_dxdt, lookupConst, get_lorenz_params,
      List.find?] <;> and_intros <;> ring

end GPUODEBench
